import Mathlib

/-!
Shallow embedding of the tool-orchestration layer of a small conversational
agent: intent detection over free text, a remote tool-invocation channel with
a bounded wait, a two-stage weather pipeline, conversation-history management,
a response loop, and models of the server-side tools. All definitions are
translated from the program's source; theorems settle the specification's
claims about it.
-/

/-- Case-insensitive character comparison, as used by the regex flag re.I
(ASCII). -/
def lowerEq (a b : Char) : Bool := a.toLower = b.toLower

/-- Word characters, the regex class backslash-w restricted to ASCII. -/
def isWordChar (c : Char) : Bool := c.isAlpha || c.isDigit || c = '_'

/-- Whitespace as recognised by Python str.strip and the regex whitespace
class. -/
def pySpace (c : Char) : Bool :=
  c = ' ' || c = '\t' || c = '\n' || c = '\r' || c = '\x0b' || c = '\x0c'

/-- The character class of the capture groups: ASCII letters and the space. -/
def classChar (c : Char) : Bool := c.isAlpha || c = ' '

/-- Remove trailing whitespace from a character list. -/
def stripEnd (l : List Char) : List Char := (l.reverse.dropWhile pySpace).reverse

/-- Remove leading and trailing whitespace from a character list. -/
def stripList (l : List Char) : List Char := stripEnd (l.dropWhile pySpace)

/-- Python str.strip. -/
def pyStrip (s : String) : String := String.mk (stripList s.data)

/-- Python str.lower (ASCII). -/
def pyLower (s : String) : String := String.mk (s.data.map Char.toLower)

/-- Does the first list start with the second one? -/
def startsW : List Char → List Char → Bool
  | _, [] => true
  | [], _ :: _ => false
  | h :: hs, n :: ns => (h = n) && startsW hs ns

/-- Substring test, Python's `needle in hay` on strings. -/
def containsSub : List Char → List Char → Bool
  | [], needle => needle.isEmpty
  | h :: t, needle => startsW (h :: t) needle || containsSub t needle

/-- Python's `needle in hay` for String. -/
def containsStr (hay needle : String) : Bool := containsSub hay.data needle.data

/-!
A matcher for the two regular expressions of the intent detector, both of the
shape: word boundary, an alternation of literal prepositions, one or more
whitespace characters (greedy), a lazy capture group of letters and spaces,
and a terminator (a set of punctuation characters or the end of the string).
The alternatives all begin with distinct letters, so at most one can apply at
a given position and committing to the first match is faithful.
-/

/-- Match one literal alternative case-insensitively at the head of the input,
returning the rest of the input. -/
def matchAltCI : List Char → List Char → Option (List Char)
  | [], rest => some rest
  | _ :: _, [] => none
  | a :: as, c :: cs => if lowerEq a c then matchAltCI as cs else none

/-- Try the alternatives in order at the head of the input. -/
def firstAlt : List (List Char) → List Char → Option (List Char)
  | [], _ => none
  | a :: rest, s =>
    match matchAltCI a s with
    | some r => some r
    | none => firstAlt rest s

/-- Does a terminator match here: one of the given characters, or the end of
the string? -/
def isTerm (terms : List Char) : List Char → Bool
  | [] => true
  | c :: _ => terms.any (fun t => c = t)

/-- The lazy capture group followed by a terminator: take the fewest class
characters (at least one) after which a terminator matches. -/
def lazyCapture (terms : List Char) : List Char → Option (List Char)
  | [] => none
  | c :: cs =>
    if classChar c then
      if isTerm terms cs then some [c]
      else
        match lazyCapture terms cs with
        | some cap => some (c :: cap)
        | none => none
    else none

/-- Greedy one-or-more whitespace, then the capture group, with backtracking:
prefer consuming more whitespace, falling back to starting the group earlier
(a space is also a class character). -/
def wsThenCapture (terms : List Char) : List Char → Option (List Char)
  | [] => none
  | c :: cs =>
    if pySpace c then
      match wsThenCapture terms cs with
      | some cap => some cap
      | none => lazyCapture terms cs
    else none

/-- Attempt the whole pattern at the current position; `prev` is the character
before it, used for the word-boundary test. -/
def tryAt (alts : List (List Char)) (terms : List Char) (prev : Option Char)
    (s : List Char) : Option (List Char) :=
  let boundaryOk : Bool :=
    match prev with
    | none => true
    | some p => !(isWordChar p)
  if boundaryOk then
    match firstAlt alts s with
    | some rest => wsThenCapture terms rest
    | none => none
  else none

/-- re.search: scan the positions left to right and return the capture of the
first position where the pattern matches. -/
def reSearch (alts : List (List Char)) (terms : List Char) :
    Option Char → List Char → Option (List Char)
  | _, [] => none
  | prev, c :: cs =>
    match tryAt alts terms prev (c :: cs) with
    | some cap => some cap
    | none => reSearch alts terms (some c) cs

/-- The prepositions of the weather pattern: in, at, for. -/
def weatherAlts : List (List Char) := [['i', 'n'], ['a', 't'], ['f', 'o', 'r']]

/-- The prepositions of the book pattern: about, on, topic, genre, like. -/
def bookAlts : List (List Char) :=
  [['a', 'b', 'o', 'u', 't'], ['o', 'n'], ['t', 'o', 'p', 'i', 'c'],
   ['g', 'e', 'n', 'r', 'e'], ['l', 'i', 'k', 'e']]

/-- The location capture of the weather regex, searched over the original
(uncased) user text. -/
def weatherCityCapture (user : String) : Option String :=
  (reSearch weatherAlts ['?', '.'] none user.data).map String.mk

/-- The topic capture of the book regex. -/
def bookTopicCapture (user : String) : Option String :=
  (reSearch bookAlts ['?', '.', ','] none user.data).map String.mk

/-- The tool selection returned by the intent detector: the shapes of the
dictionaries detect_tool can return. -/
inductive Decision
  | weather_pipeline (city : String)
  | trivia
  | random_joke
  | random_dog
  | book_recs (topic : String) (limit : Nat)
deriving DecidableEq, Repr

/-- Weather-category keyword test over the lowercased text. -/
def weather_kw (u : String) : Bool :=
  ["weather", "temperature", "forecast"].any (fun w => containsStr (pyLower u) w)

/-- Trivia-category keyword test. -/
def trivia_kw (u : String) : Bool :=
  ["trivia", "quiz", "question", "test me", "challenge"].any
    (fun w => containsStr (pyLower u) w)

/-- Joke-category keyword test. -/
def joke_kw (u : String) : Bool :=
  ["joke", "funny", "laugh", "humor", "humour"].any
    (fun w => containsStr (pyLower u) w)

/-- Dog-category keyword test. -/
def dog_kw (u : String) : Bool :=
  ["dog", "puppy", "doggo", "pup", "woof"].any
    (fun w => containsStr (pyLower u) w)

/-- Book-category keyword test. -/
def book_kw (u : String) : Bool :=
  ["book", "read", "novel", "recommend", "fiction", "story"].any
    (fun w => containsStr (pyLower u) w)

/-- The weather branch of detect_tool: it yields a city only when a weather
keyword occurs and the regex captures a phrase that is nonblank after
stripping; otherwise detection falls through to the next categories. -/
def weather_city (user : String) : Option String :=
  if weather_kw user then
    match weatherCityCapture user with
    | some cap => if pyStrip cap = "" then none else some (pyStrip cap)
    | none => none
  else none

/-- detect_tool from agent_fun.py: keyword categories tried in order, the
weather branch falling through when it extracts no city. -/
def detect_tool (user : String) : Option Decision :=
  match weather_city user with
  | some city => some (Decision.weather_pipeline city)
  | none =>
    if trivia_kw user then some Decision.trivia
    else if joke_kw user then some Decision.random_joke
    else if dog_kw user then some Decision.random_dog
    else if book_kw user then
      some (Decision.book_recs
        (match bookTopicCapture user with
         | some cap => pyStrip cap
         | none => "fiction") 3)
    else none

/-!
The remote invocation channel. A tool call is modelled by the behaviour the
remote side exhibits for it: how long it takes, and whether it completes with
a response or raises a fault carrying a message. call_tool wraps the call in
a bounded wait of 20 time units and converts the timeout and every fault into
a bracketed error string, so it always returns a string to its caller.
-/

/-- One JSON-like value, for tool arguments and parsed geocode results, with
Python truthiness. -/
inductive JValue
  | jnull
  | jbool (b : Bool)
  | jnum (q : ℚ)
  | jstr (s : String)
deriving DecidableEq, Repr

/-- Python truthiness of an optional value: a missing key, None, zero and the
empty string are falsy. -/
def jtruthy : Option JValue → Bool
  | none => false
  | some JValue.jnull => false
  | some (JValue.jbool b) => b
  | some (JValue.jnum q) => q ≠ 0
  | some (JValue.jstr s) => s ≠ ""

/-- One content block of a tool response: its textual payload when the block
has a string `text` attribute, and its structural rendering str(b). -/
structure Fragment where
  text : Option String
  asStr : String
deriving DecidableEq, Repr

/-- A remote tool response: content blocks and the model_dump_json rendering
used when the content is empty. -/
structure ToolResponse where
  content : List Fragment
  dumpJson : String
deriving DecidableEq, Repr

/-- The remote side's behaviour for one invocation: its duration and either a
response or a raised fault with its message. -/
structure RemoteCall where
  duration : Nat
  outcome : Except String ToolResponse

/-- A session maps a tool name and arguments to the remote behaviour. -/
def Session : Type := String → List (String × JValue) → RemoteCall

/-- call_tool from agent_fun.py: a 20-unit bounded wait; on expiry a timeout
error string, on a fault an error string carrying the fault's message, and on
a response the newline-join of the blocks' text (falling back to str(b)), or
the JSON dump when the content is empty. -/
def call_tool (session : Session) (name : String)
    (args : List (String × JValue)) : String :=
  let c := session name args
  if c.duration > 20 then "[Error: '" ++ name ++ "' timed out]"
  else
    match c.outcome with
    | Except.error e => "[Error: " ++ e ++ "]"
    | Except.ok result =>
      if result.content.isEmpty then result.dumpJson
      else
        String.intercalate "\n" (result.content.map (fun b => b.text.getD b.asStr))

/-!
The pipeline executor. The weather flow geocodes the city, parses the reply
as JSON, and only when the parsed mapping holds truthy latitude and longitude
does it invoke the weather tool. json.loads and the attribute access on its
result are modelled by an environment function returning the parsed mapping,
or none when parsing raises or the value is not a mapping (both are caught by
the surrounding handler, which surfaces the raw text).
-/

/-- The environment of the orchestrator: the live session and the JSON parser
(none models a parse error or a non-mapping value, whose attribute access
raises and is caught). -/
structure Env where
  session : Session
  jsonParse : String → Option (List (String × JValue))

/-- Execute one detected tool selection, as in the agent loop, returning the
tool text together with the trace of remote tool names invoked. -/
def execute_decision (env : Env) (d : Decision) : String × List String :=
  match d with
  | Decision.weather_pipeline city =>
    let raw := call_tool env.session "city_to_coords" [("city", JValue.jstr city)]
    match env.jsonParse raw with
    | none => (raw, ["city_to_coords"])
    | some coords =>
      let lat := coords.lookup "latitude"
      let lon := coords.lookup "longitude"
      if jtruthy lat && jtruthy lon then
        let weather := call_tool env.session "weather_summary"
          [("latitude", lat.getD JValue.jnull), ("longitude", lon.getD JValue.jnull)]
        ("Weather for " ++ city ++ ":\n" ++ weather, ["city_to_coords", "weather_summary"])
      else
        ("Could not find city '" ++ city ++ "'.", ["city_to_coords"])
  | Decision.trivia => (call_tool env.session "trivia" [], ["trivia"])
  | Decision.random_joke => (call_tool env.session "random_joke" [], ["random_joke"])
  | Decision.random_dog => (call_tool env.session "random_dog" [], ["random_dog"])
  | Decision.book_recs topic limit =>
    (call_tool env.session "book_recs"
      [("topic", JValue.jstr topic), ("limit", JValue.jnum limit)], ["book_recs"])

/-!
The conversation manager and response loop.
-/

/-- One conversation message. -/
structure Message where
  role : String
  content : String
deriving DecidableEq, Repr

/-- The system persona installed once at history creation. -/
def SYSTEM : String :=
  "You are a cheerful weekend assistant. " ++
  "When you receive tool data, present it naturally in plain English — no JSON, no code. " ++
  "For trivia, show the question and all options clearly, then reveal the answer. " ++
  "For jokes, just say the joke. " ++
  "For weather, give a friendly summary. " ++
  "Keep replies short and warm."

/-- The initial history: the single system message. -/
def init_history : List Message := [⟨"system", SYSTEM⟩]

/-- Build the prompt for the model: a grounding prompt embedding the tool text
when it is truthy (present and nonempty), the raw user text otherwise. -/
def build_prompt (user : String) (tool_result : Option String) : String :=
  match tool_result with
  | some tr =>
    if tr = "" then user
    else
      "User asked: \"" ++ user ++ "\"\n\n" ++
      "Tool returned:\n" ++ tr ++ "\n\n" ++
      "Reply to the user naturally in plain English. No JSON or code."
  | none => user

/-- The tool text of one turn: the executed result of the detected tool, or
nothing when no category matched. -/
def turn_tool_result (env : Env) (user : String) : Option String :=
  match detect_tool user with
  | none => none
  | some d => some (execute_decision env d).1

/-- The user-role prompt appended for one turn. -/
def turn_prompt (env : Env) (user : String) : String :=
  build_prompt user (turn_tool_result env user)

/-- One completed loop turn: detect, execute, build the prompt, append the
user message, ask the model over the whole history, append its reply. -/
def run_turn (env : Env) (llm : List Message → String) (user : String)
    (history : List Message) : List Message :=
  let prompt := turn_prompt env user
  let h1 := history ++ [⟨"user", prompt⟩]
  h1 ++ [⟨"assistant", llm h1⟩]

/-- Run the completed turns for a sequence of user inputs. -/
def run_turns (env : Env) (llm : List Message → String) (inputs : List String)
    (history : List Message) : List Message :=
  inputs.foldl (fun h u => run_turn env llm u h) history

/-- One read from standard input: a line, or an interrupt (EOFError or
KeyboardInterrupt) during the read. -/
inductive ReadEvent
  | line (s : String)
  | interrupt
deriving DecidableEq, Repr

/-- Does a read line end the loop: blank after stripping, or an exit keyword
case-insensitively. -/
def exit_line (s : String) : Bool :=
  let user := pyStrip s
  user = "" || pyLower user = "exit" || pyLower user = "quit"

/-- What the response loop did for a sequence of reads: the stripped inputs
processed as turns, and the farewell text printed when an exit occurred. -/
structure LoopOutcome where
  turns : List String
  farewell : Option String
deriving DecidableEq, Repr

/-- The control flow of the response loop of agent_fun.py over a sequence of
read events: an interrupt or an exit line stops the loop with a farewell and
no further turns; any other line is processed as exactly one turn. -/
def response_loop : List ReadEvent → LoopOutcome
  | [] => ⟨[], none⟩
  | ReadEvent.interrupt :: _ => ⟨[], some "\nGoodbye!"⟩
  | ReadEvent.line s :: rest =>
    if exit_line s then ⟨[], some "Goodbye!"⟩
    else
      let o := response_loop rest
      ⟨pyStrip s :: o.turns, o.farewell⟩

/-!
Server-side tools from server_fun.py. Each tool's outbound web request (the
requests.get call, raise_for_status and JSON decoding) is modelled by an
input of type Except String A: an error is a raised fault with its message,
an ok value is the decoded payload. A tool whose body has no handler returns
in Except itself, propagating the fault; a tool with a try/except returns a
plain value.
-/

/-- One geocoding hit of the Open-Meteo search payload. -/
structure GeoLoc where
  name : String
  country : Option String
  latitude : ℚ
  longitude : ℚ
  timezone : Option String
deriving DecidableEq, Repr

/-- The decoded geocoding payload: its results list (the .get default folds a
missing key into the empty list). -/
structure GeoData where
  results : List GeoLoc
deriving DecidableEq, Repr

/-- The mapping returned by city_to_coords: an error mapping or the location
fields. -/
inductive CityOut
  | err (msg : String)
  | loc (city : String) (country : Option String) (latitude longitude : ℚ)
        (timezone : Option String)
deriving DecidableEq, Repr

/-- city_to_coords from server_fun.py: its try/except converts any fault of
the outbound request into an error mapping, so it always returns a mapping. -/
def city_to_coords (city : String) (resp : Except String GeoData) : CityOut :=
  match resp with
  | Except.error e => CityOut.err e
  | Except.ok data =>
    match data.results with
    | [] => CityOut.err ("City '" ++ city ++ "' not found")
    | loc :: _ => CityOut.loc loc.name loc.country loc.latitude loc.longitude loc.timezone

/-- The `current` block of the forecast payload; each field may be absent. -/
structure WeatherCurrent where
  temperature_2m : Option ℚ
  wind_speed_10m : Option ℚ
  weather_code : Option Int
deriving DecidableEq, Repr

/-- The decoded forecast payload: its optional `current` block. -/
structure ForecastJson where
  current : Option WeatherCurrent
deriving DecidableEq, Repr

/-- get_weather from server_fun.py: no handler, so a fault of the outbound
request propagates; on success the `current` block, defaulting to an empty
mapping. -/
def get_weather (resp : Except String ForecastJson) : Except String WeatherCurrent :=
  match resp with
  | Except.error e => Except.error e
  | Except.ok j => Except.ok (j.current.getD ⟨none, none, none⟩)

/-- The weather-code description table of weather_summary. -/
def descriptions : List (Int × String) :=
  [(0, "clear sky"), (1, "mainly clear"), (2, "partly cloudy"), (3, "overcast"),
   (45, "foggy"), (51, "light drizzle"), (61, "light rain"), (63, "rain"),
   (65, "heavy rain"), (71, "light snow"), (73, "snow"), (80, "rain showers"),
   (95, "thunderstorm")]

/-- The temperature-band sentence of weather_summary. -/
def feel (temp_f : ℚ) : String :=
  if temp_f < 32 then "Freezing cold — perfect for hot cocoa indoors!"
  else if temp_f < 50 then "Chilly — grab a cozy sweater."
  else if temp_f < 70 then "Pleasant and mild."
  else if temp_f < 85 then "Warm and lovely."
  else "Hot — stay hydrated!"

/-- Rounding to one decimal place, modelling Python round(x, 1) (exact ties
aside, which no claim depends on). -/
def pyRound1 (q : ℚ) : ℚ := (⌊q * 10 + 1 / 2⌋ : ℚ) / 10

/-- The success shape of weather_summary. -/
structure WeatherReport where
  temperature_f : ℚ
  condition : String
  wind_kmh : ℚ
  summary : String
deriving DecidableEq, Repr

/-- The mapping weather_summary returns when it returns: an error mapping or
the report shape. -/
inductive WSOut
  | err (msg : String)
  | report (r : WeatherReport)
deriving DecidableEq, Repr

/-- weather_summary from server_fun.py: it calls get_weather with no handler,
so a fault of the outbound request propagates out of the tool; otherwise it
returns an error mapping when the temperature is absent, and the report shape
when it is present. -/
def weather_summary (resp : Except String ForecastJson) : Except String WSOut :=
  match get_weather resp with
  | Except.error e => Except.error e
  | Except.ok data =>
    match data.temperature_2m with
    | none => Except.ok (WSOut.err "Could not retrieve weather")
    | some temp_f =>
      let wind_kmh := data.wind_speed_10m.getD 0
      let code := data.weather_code.getD 0
      let condition := (descriptions.lookup code).getD "unknown weather"
      Except.ok (WSOut.report
        { temperature_f := pyRound1 temp_f
          condition := condition
          wind_kmh := pyRound1 wind_kmh
          summary := "It's currently " ++ toString temp_f ++ "°F and " ++ condition ++
            " with winds around " ++ toString wind_kmh ++ " km/h. " ++ feel temp_f })

/-- Number the titles as in book_recs. -/
def numberTitles (titles : List String) : List String :=
  titles.enum.map (fun it => toString (it.1 + 1) ++ ". " ++ it.2)

/-- book_recs from server_fun.py, over the decoded docs list (each doc
abstracted to its optional title): its try/except converts any fault into an
apologetic string, so it always returns a string. -/
def book_recs (topic : String) (limit : Nat)
    (resp : Except String (List (Option String))) : String :=
  match resp with
  | Except.error e => "Error fetching books: " ++ e
  | Except.ok docs =>
    let docs := docs.take limit
    if docs.isEmpty then "Sorry, no books found for '" ++ topic ++ "'."
    else
      "Here are some " ++ topic ++ " books:\n" ++
      String.intercalate "\n" (numberTitles (docs.map (fun d => d.getD "Unknown Title")))

/-- The mapping returned by random_joke. -/
structure JokeOut where
  joke : String
deriving DecidableEq, Repr

/-- random_joke from server_fun.py: no handler, so a fault of the outbound
request propagates; on success the joke field with its default. -/
def random_joke (resp : Except String (Option String)) : Except String JokeOut :=
  match resp with
  | Except.error e => Except.error e
  | Except.ok j => Except.ok ⟨j.getD "No joke found"⟩

/-- The placeholder image URL of random_dog. -/
def placeholderDog : String := "https://via.placeholder.com/500?text=No+Dog+Image"

/-- random_dog from server_fun.py, over the decoded `message` field: its
try/except and URL check degrade every failure to the placeholder URL, so it
always returns a URL string. -/
def random_dog (resp : Except String (Option String)) : String :=
  match resp with
  | Except.error _ => placeholderDog
  | Except.ok u =>
    match u with
    | none => placeholderDog
    | some url => if url.startsWith "http" then url else placeholderDog


/-!
Concrete environments used by witnesses and counterexamples.
-/

/-- A session whose remote call takes 21 units, past the 20-unit bound. -/
def sessTimeout : Session := fun _ _ => ⟨21, Except.ok ⟨[], "resp"⟩⟩

/-- A session whose remote call raises a fault. -/
def sessFault : Session := fun _ _ => ⟨0, Except.error "boom"⟩

/-- An environment whose geocode reply is the unparseable text "oops". -/
def envRawGeo : Env :=
  ⟨fun _ _ => ⟨0, Except.ok ⟨[⟨some "oops", "oops"⟩], "d"⟩⟩, fun _ => none⟩

/-- An environment whose geocode reply parses to a mapping without
coordinates. -/
def envNoCoords : Env :=
  ⟨fun _ _ => ⟨0, Except.ok ⟨[⟨some "geo", "geo"⟩], "d"⟩⟩,
   fun _ => some [("name", JValue.jstr "X")]⟩

/-- An environment whose geocode reply parses to latitude 0, longitude 2. -/
def envZeroLat : Env :=
  ⟨fun _ _ => ⟨0, Except.ok ⟨[⟨some "geo", "geo"⟩], "d"⟩⟩,
   fun _ => some [("latitude", JValue.jnum 0), ("longitude", JValue.jnum 2)]⟩

/-- An environment where every tool call succeeds with an empty text. -/
def envEmptyTool : Env :=
  ⟨fun _ _ => ⟨0, Except.ok ⟨[⟨some "", "blk"⟩], "d"⟩⟩, fun _ => none⟩

/-- A constant language model for witnesses. -/
def llmOk : List Message → String := fun _ => "ok"

/-!
Claim theorems.
-/

/-- Claim C2: for every tool name and argument map, call_tool never raises to
its caller: when the remote call exceeds the 20-unit bound it returns the
failure string tagged as a timeout, and any remote fault is caught and
returned as a failure string carrying the fault's message (call_tool is a
total function into strings, so nothing propagates). -/
theorem c2_call_tool_total (session : Session) (name : String)
    (args : List (String × JValue)) :
    ((session name args).duration > 20 →
      call_tool session name args = "[Error: '" ++ name ++ "' timed out]") ∧
    (∀ m, (session name args).duration ≤ 20 →
      (session name args).outcome = Except.error m →
      call_tool session name args = "[Error: " ++ m ++ "]") := by
  constructor
  · intro h
    simp [call_tool, h]
  · intro m h1 h2
    simp [call_tool, Nat.not_lt.mpr h1, h2]

/-- Claim C2, witness: the timeout string for a 21-unit call and the fault
string for a raised fault. -/
theorem c2_witness :
    call_tool sessTimeout "trivia" [] = "[Error: 'trivia' timed out]" ∧
    call_tool sessFault "trivia" [] = "[Error: boom]" :=
  ⟨(c2_call_tool_total sessTimeout "trivia" []).1 (by decide),
   (c2_call_tool_total sessFault "trivia" []).2 "boom" (by decide) rfl⟩

/-- Claim C3, counterexample: weather_summary does not always return a
mapping — when its own outbound request fails, the fault propagates out of
the tool instead of degrading to a default. -/
theorem c3_counterexample :
    weather_summary (Except.error "boom") = Except.error "boom" := rfl

/-- Claim C3, amended: the tools with a handler (city_to_coords, random_dog,
book_recs) degrade a failed outbound request to a default mapping, URL or
string; random_joke and weather_summary have no handler and propagate the
fault; weather_summary, when its request succeeds, returns either the error
mapping or the full report shape. -/
theorem c3_degradation (e city topic : String) (limit : Nat)
    (data : WeatherCurrent) :
    city_to_coords city (Except.error e) = CityOut.err e ∧
    random_dog (Except.error e) = placeholderDog ∧
    book_recs topic limit (Except.error e) = "Error fetching books: " ++ e ∧
    random_joke (Except.error e) = Except.error e ∧
    (data.temperature_2m = none →
      weather_summary (Except.ok ⟨some data⟩) =
        Except.ok (WSOut.err "Could not retrieve weather")) ∧
    (∀ t, data.temperature_2m = some t →
      ∃ rep, weather_summary (Except.ok ⟨some data⟩) =
        Except.ok (WSOut.report rep)) := by
  refine ⟨rfl, rfl, rfl, rfl, ?_, ?_⟩
  · intro h
    simp [weather_summary, get_weather, h]
  · intro t ht
    exact ⟨_, by
      simp only [weather_summary, get_weather, Option.getD_some, ht]
      rfl⟩

/-- Claim C3, witness: both success shapes of weather_summary at concrete
weather data. -/
theorem c3_witness :
    weather_summary (Except.ok ⟨some ⟨none, none, none⟩⟩) =
      Except.ok (WSOut.err "Could not retrieve weather") ∧
    (∃ rep, weather_summary (Except.ok ⟨some ⟨some 59, some 5, some 3⟩⟩) =
      Except.ok (WSOut.report rep)) :=
  ⟨(c3_degradation "x" "c" "t" 3 ⟨none, none, none⟩).2.2.2.2.1 rfl,
   (c3_degradation "x" "c" "t" 3 ⟨some 59, some 5, some 3⟩).2.2.2.2.2 59 rfl⟩

/-- Claim C9: when the geocode stage parses to a mapping whose latitude or
longitude equals 0, the pipeline treats it as city-not-found — it produces
the "Could not find city" message and never invokes weather_summary, because
the coordinate check tests truthiness rather than presence. -/
theorem c9_zero_coordinate (env : Env) (city : String)
    (coords : List (String × JValue))
    (hparse : env.jsonParse
      (call_tool env.session "city_to_coords" [("city", JValue.jstr city)]) =
        some coords)
    (hzero : coords.lookup "latitude" = some (JValue.jnum 0) ∨
             coords.lookup "longitude" = some (JValue.jnum 0)) :
    execute_decision env (Decision.weather_pipeline city) =
      ("Could not find city '" ++ city ++ "'.", ["city_to_coords"]) ∧
    (execute_decision env (Decision.weather_pipeline city)).2.count
      "weather_summary" = 0 := by
  have hfalse : (jtruthy (coords.lookup "latitude") &&
      jtruthy (coords.lookup "longitude")) = false := by
    rcases hzero with h | h <;> simp [h, jtruthy]
  have hmain : execute_decision env (Decision.weather_pipeline city) =
      ("Could not find city '" ++ city ++ "'.", ["city_to_coords"]) := by
    simp only [execute_decision]
    rw [hparse]
    simp [hfalse]
  exact ⟨hmain, by rw [hmain]; rfl⟩

/-- Claim C9, witness: a geocode result with latitude 0 yields the
city-not-found message and an invocation trace without weather_summary. -/
theorem c9_witness :
    execute_decision envZeroLat (Decision.weather_pipeline "Quito") =
      ("Could not find city 'Quito'.", ["city_to_coords"]) ∧
    (execute_decision envZeroLat (Decision.weather_pipeline "Quito")).2.count
      "weather_summary" = 0 :=
  c9_zero_coordinate envZeroLat "Quito"
    [("latitude", JValue.jnum 0), ("longitude", JValue.jnum 2)] rfl (Or.inl rfl)

/-- Claim C1, counterexample: a geocode result that cannot be parsed does not
produce the "Could not find city" message — the pipeline surfaces the raw
geocode text instead (the weather stage is still never invoked). -/
theorem c1_counterexample :
    execute_decision envRawGeo (Decision.weather_pipeline "Paris") =
      ("oops", ["city_to_coords"]) ∧
    ("oops" : String) ≠ "Could not find city 'Paris'." := by
  refine ⟨rfl, by decide⟩

/-- Claim C1, amended: a geocode result that parses to a mapping without a
truthy latitude/longitude pair produces the "Could not find city" message and
weather_summary is never invoked (call count 0); a result that cannot be
parsed as a mapping surfaces the raw geocode text, and weather_summary is
likewise never invoked. -/
theorem c1_pipeline_gate (env : Env) (city : String) :
    (env.jsonParse
        (call_tool env.session "city_to_coords" [("city", JValue.jstr city)]) = none →
      execute_decision env (Decision.weather_pipeline city) =
        (call_tool env.session "city_to_coords" [("city", JValue.jstr city)],
         ["city_to_coords"]) ∧
      (execute_decision env (Decision.weather_pipeline city)).2.count
        "weather_summary" = 0) ∧
    (∀ coords, env.jsonParse
        (call_tool env.session "city_to_coords" [("city", JValue.jstr city)]) =
          some coords →
      (jtruthy (coords.lookup "latitude") &&
        jtruthy (coords.lookup "longitude")) = false →
      execute_decision env (Decision.weather_pipeline city) =
        ("Could not find city '" ++ city ++ "'.", ["city_to_coords"]) ∧
      (execute_decision env (Decision.weather_pipeline city)).2.count
        "weather_summary" = 0) := by
  constructor
  · intro hparse
    have hmain : execute_decision env (Decision.weather_pipeline city) =
        (call_tool env.session "city_to_coords" [("city", JValue.jstr city)],
         ["city_to_coords"]) := by
      simp only [execute_decision]
      rw [hparse]
    exact ⟨hmain, by rw [hmain]; rfl⟩
  · intro coords hparse hfalse
    have hmain : execute_decision env (Decision.weather_pipeline city) =
        ("Could not find city '" ++ city ++ "'.", ["city_to_coords"]) := by
      simp only [execute_decision]
      rw [hparse]
      simp [hfalse]
    exact ⟨hmain, by rw [hmain]; rfl⟩

/-- Claim C1, witness: both gate outcomes at concrete environments — an
unparseable geocode reply surfaces the raw text, a parsed mapping without
coordinates yields the message; in both the weather call count is 0. -/
theorem c1_witness :
    (execute_decision envRawGeo (Decision.weather_pipeline "Berlin") =
        ("oops", ["city_to_coords"]) ∧
      (execute_decision envRawGeo (Decision.weather_pipeline "Berlin")).2.count
        "weather_summary" = 0) ∧
    (execute_decision envNoCoords (Decision.weather_pipeline "Atlantis") =
        ("Could not find city 'Atlantis'.", ["city_to_coords"]) ∧
      (execute_decision envNoCoords (Decision.weather_pipeline "Atlantis")).2.count
        "weather_summary" = 0) :=
  ⟨(c1_pipeline_gate envRawGeo "Berlin").1 rfl,
   (c1_pipeline_gate envNoCoords "Atlantis").2 [("name", JValue.jstr "X")] rfl
     (by decide)⟩

/-- Claim C10: when the invoked tool succeeds with an empty string, the turn
proceeds as if no tool had matched — no grounding prompt is built and the raw
user text is appended to history unchanged, because the grounding branch
tests the result's truthiness. -/
theorem c10_empty_tool_result (env : Env) (llm : List Message → String)
    (user : String) (history : List Message)
    (h : ∀ d, detect_tool user = some d → (execute_decision env d).1 = "") :
    run_turn env llm user history =
      history ++ [⟨"user", user⟩,
        ⟨"assistant", llm (history ++ [⟨"user", user⟩])⟩] := by
  have hp : turn_prompt env user = user := by
    unfold turn_prompt turn_tool_result
    cases hd : detect_tool user with
    | none => rfl
    | some d => simp [build_prompt, h d hd]
  simp [run_turn, hp]

/-- One turn appends exactly its user message and the model's reply. -/
theorem run_turn_eq (env : Env) (llm : List Message → String) (u : String)
    (h : List Message) :
    run_turn env llm u h =
      h ++ [⟨"user", turn_prompt env u⟩,
        ⟨"assistant", llm (h ++ [⟨"user", turn_prompt env u⟩])⟩] := by
  simp [run_turn]

/-- Running the turns only ever appends user/assistant pairs, in order. -/
theorem run_turns_shape (env : Env) (llm : List Message → String) :
    ∀ (inputs : List String) (h : List Message),
      ∃ pairs : List (String × String),
        pairs.length = inputs.length ∧
        run_turns env llm inputs h =
          h ++ pairs.flatMap (fun pa => [⟨"user", pa.1⟩, ⟨"assistant", pa.2⟩])
  | [], h => ⟨[], rfl, by simp [run_turns]⟩
  | u :: us, h => by
    obtain ⟨ps, hlen, heq⟩ := run_turns_shape env llm us (run_turn env llm u h)
    refine ⟨(turn_prompt env u,
      llm (h ++ [⟨"user", turn_prompt env u⟩])) :: ps, by simp [hlen], ?_⟩
    have hstep : run_turns env llm (u :: us) h =
        run_turns env llm us (run_turn env llm u h) := rfl
    rw [hstep, heq, run_turn_eq]
    simp

/-- The flattened pairs contribute two messages each. -/
theorem pairs_bind_length (f g : String × String → Message) :
    ∀ ps : List (String × String),
      (ps.flatMap fun pa => [f pa, g pa]).length = 2 * ps.length
  | [] => rfl
  | p :: ps => by
    have ih := pairs_bind_length f g ps
    simp only [List.flatMap_cons, List.length_append, List.length_cons,
      List.length_nil, ih]
    omega

/-- Claim C6: the conversation history is strictly append-only and
order-preserving — after N completed turns it is the unchanged system message
installed at creation followed by N alternating user/assistant pairs, hence
exactly 1 + 2N messages, and each turn only appends to the existing
history. -/
theorem c6_history_shape (env : Env) (llm : List Message → String)
    (inputs : List String) :
    ∃ pairs : List (String × String),
      pairs.length = inputs.length ∧
      run_turns env llm inputs init_history =
        Message.mk "system" SYSTEM ::
          pairs.flatMap (fun pa => [⟨"user", pa.1⟩, ⟨"assistant", pa.2⟩]) ∧
      (run_turns env llm inputs init_history).length = 1 + 2 * inputs.length ∧
      (run_turns env llm inputs init_history).head? =
        some (Message.mk "system" SYSTEM) ∧
      ∀ (h : List Message) (u : String), ∃ t, run_turn env llm u h = h ++ t := by
  obtain ⟨ps, hlen, heq⟩ := run_turns_shape env llm inputs init_history
  have hcons : run_turns env llm inputs init_history =
      Message.mk "system" SYSTEM ::
        ps.flatMap (fun pa => [⟨"user", pa.1⟩, ⟨"assistant", pa.2⟩]) := by
    rw [heq]; rfl
  refine ⟨ps, hlen, hcons, ?_, ?_, ?_⟩
  · rw [hcons]
    simp only [List.length_cons,
      pairs_bind_length (fun pa => ⟨"user", pa.1⟩) (fun pa => ⟨"assistant", pa.2⟩) ps,
      hlen]
    omega
  · rw [hcons]; rfl
  · intro h u
    exact ⟨_, run_turn_eq env llm u h⟩

/-- Claim C8, counterexample: the loop's exit test strips the line first, so
the input line " exit " — which is neither empty nor "exit"/"quit" in any
letter case — still terminates the loop instead of being processed as a
turn. -/
theorem c8_counterexample :
    response_loop [ReadEvent.line " exit ", ReadEvent.line "hello"] =
      ⟨[], some "Goodbye!"⟩ ∧
    (" exit " : String) ≠ "" ∧
    pyLower " exit " ≠ "exit" ∧ pyLower " exit " ≠ "quit" := by decide

/-- Claim C8, amended: the loop terminates cleanly with a farewell, issuing
no further turns, exactly when the stripped input line is empty or is
"exit"/"quit" case-insensitively, or the read is interrupted (stream end
reads as an empty line); any other line is processed as exactly one turn and
the loop continues. -/
theorem c8_loop_exit (s : String) (rest : List ReadEvent) :
    (exit_line s = true ↔
      (pyStrip s = "" ∨ pyLower (pyStrip s) = "exit" ∨
        pyLower (pyStrip s) = "quit")) ∧
    (exit_line s = true →
      response_loop (ReadEvent.line s :: rest) = ⟨[], some "Goodbye!"⟩) ∧
    response_loop (ReadEvent.interrupt :: rest) = ⟨[], some "\nGoodbye!"⟩ ∧
    (exit_line s = false →
      response_loop (ReadEvent.line s :: rest) =
        ⟨pyStrip s :: (response_loop rest).turns,
         (response_loop rest).farewell⟩) := by
  refine ⟨?_, ?_, rfl, ?_⟩
  · simp [exit_line, or_assoc]
  · intro h
    simp [response_loop, h]
  · intro h
    simp [response_loop, h]

/-- Claim C8, witness: a normal line is one turn and the loop continues; an
exit keyword in capitals terminates with the farewell. -/
theorem c8_witness :
    response_loop [ReadEvent.line "hello"] = ⟨["hello"], none⟩ ∧
    response_loop [ReadEvent.line "EXIT"] = ⟨[], some "Goodbye!"⟩ := by
  constructor
  · have h := (c8_loop_exit "hello" ([] : List ReadEvent)).2.2.2 (by decide)
    rw [h]; decide
  · exact (c8_loop_exit "EXIT" ([] : List ReadEvent)).2.1 (by decide)

/-- Claim C4, counterexample: an input containing a weather keyword does not
stop detection at the weather category — "weather joke" extracts no city, so
detection falls through and the joke category wins. -/
theorem c4_counterexample :
    weather_kw "weather joke" = true ∧
    detect_tool "weather joke" = some Decision.random_joke := by decide

/-- Claim C4, amended: the five categories are tested in the fixed order
weather, trivia, joke, dog, book over the lowercased input and the first
category whose test succeeds wins, where the weather test requires both a
keyword and an extractable nonblank city — when the weather category matches
keywords but extracts no city, detection falls through to the later
categories; no category is revisited. -/
theorem c4_priority (u : String) :
    (∀ c, weather_city u = some c →
      detect_tool u = some (Decision.weather_pipeline c)) ∧
    (weather_city u = none → trivia_kw u = true →
      detect_tool u = some Decision.trivia) ∧
    (weather_city u = none → trivia_kw u = false → joke_kw u = true →
      detect_tool u = some Decision.random_joke) ∧
    (weather_city u = none → trivia_kw u = false → joke_kw u = false →
      dog_kw u = true → detect_tool u = some Decision.random_dog) ∧
    (weather_city u = none → trivia_kw u = false → joke_kw u = false →
      dog_kw u = false → book_kw u = true →
      detect_tool u = some (Decision.book_recs
        (match bookTopicCapture u with
         | some cap => pyStrip cap
         | none => "fiction") 3)) ∧
    (weather_city u = none → trivia_kw u = false → joke_kw u = false →
      dog_kw u = false → book_kw u = false → detect_tool u = none) := by
  refine ⟨?_, ?_, ?_, ?_, ?_, ?_⟩ <;> intros <;> simp_all [detect_tool]

/-- Claim C4, witness: with no weather city extracted the trivia category is
the first match. -/
theorem c4_witness : detect_tool "quiz me" = some Decision.trivia :=
  (c4_priority "quiz me").2.1 (by decide) (by decide)

/-- Claim C5, counterexample: keywords matching a category do not guarantee a
ToolCall — "weather" matches the weather category's keywords, its capture is
missing, and detection returns nothing rather than a call with a fallback
argument. -/
theorem c5_counterexample :
    weather_kw "weather" = true ∧ detect_tool "weather" = none := by decide

/-- Claim C5, amended: detection never raises (it is a total function); for
the book category a missing capture falls back to the topic "fiction", while
for the weather category a missing capture produces no ToolCall — detection
falls through and, when no other category matches, returns nothing. -/
theorem c5_capture_fallbacks (u : String) :
    (weather_kw u = true → weatherCityCapture u = none → trivia_kw u = false →
      joke_kw u = false → dog_kw u = false → book_kw u = false →
      detect_tool u = none) ∧
    (weather_city u = none → trivia_kw u = false → joke_kw u = false →
      dog_kw u = false → book_kw u = true → bookTopicCapture u = none →
      detect_tool u = some (Decision.book_recs "fiction" 3)) := by
  constructor <;> intros <;> simp_all [detect_tool, weather_city]

/-- Claim C5, witness: the weather fall-through at "weather please" and the
book fallback topic at "recommend something". -/
theorem c5_witness :
    detect_tool "weather please" = none ∧
    detect_tool "recommend something" = some (Decision.book_recs "fiction" 3) :=
  ⟨(c5_capture_fallbacks "weather please").1 (by decide) (by decide) (by decide)
      (by decide) (by decide) (by decide),
   (c5_capture_fallbacks "recommend something").2 (by decide) (by decide)
      (by decide) (by decide) (by decide) (by decide)⟩

/-- Claim C10, witness: a joke turn whose tool text is empty appends the raw
user text ungrounded. -/
theorem c10_witness :
    run_turn envEmptyTool llmOk "tell me a joke" init_history =
      init_history ++ [⟨"user", "tell me a joke"⟩, ⟨"assistant", "ok"⟩] :=
  c10_empty_tool_result envEmptyTool llmOk "tell me a joke" init_history (by
    intro d hd
    have h2 : detect_tool "tell me a joke" = some Decision.random_joke := by decide
    rw [h2] at hd
    injection hd with h3
    rw [← h3]
    rfl)

/-!
Lemmas about the regex matcher, leading to claim C7.
-/

/-- A list always starts with itself followed by anything. -/
theorem startsW_append_self : ∀ (a t : List Char), startsW (a ++ t) a = true
  | [], [] => rfl
  | [], _ :: _ => rfl
  | h :: hs, t => by
    show (decide (h = h) && startsW (hs ++ t) hs) = true
    simp [startsW_append_self hs t]

/-- A list contains itself as a substring, whatever follows. -/
theorem containsSub_append_self : ∀ (a t : List Char), containsSub (a ++ t) a = true
  | [], t => by cases t <;> rfl
  | h :: hs, t => by
    have hs1 : startsW (h :: (hs ++ t)) (h :: hs) = true := by
      have h2 := startsW_append_self (h :: hs) t
      simpa using h2
    show (startsW (h :: (hs ++ t)) (h :: hs) || containsSub (hs ++ t) (h :: hs)) = true
    rw [hs1]
    rfl

/-- Characters that are letters or spaces never match a terminator drawn from
a list of non-letter, non-space characters. -/
theorem alphaSpace_term_false (terms : List Char)
    (hterms : ∀ t ∈ terms, t.isAlpha = false ∧ t ≠ ' ')
    (x : Char) (hx : x.isAlpha = true ∨ x = ' ') :
    terms.any (fun t => x = t) = false := by
  rw [List.any_eq_false]
  intro t ht
  simp only [decide_eq_true_eq]
  intro hxt
  subst hxt
  rcases hx with h | h
  · exact absurd h (by simp [(hterms x ht).1])
  · exact absurd h (hterms x ht).2

/-- On a nonempty block of class characters none of which begins a
terminator, the lazy capture group extends to the whole block (the terminator
is then the end of the string). -/
theorem lazyCapture_all_class (terms : List Char) :
    ∀ l : List Char, l ≠ [] → (∀ x ∈ l, classChar x = true) →
      (∀ x ∈ l, terms.any (fun t => x = t) = false) →
      lazyCapture terms l = some l
  | [], h, _, _ => absurd rfl h
  | [c], _, hclass, _ => by
    simp [lazyCapture, hclass c (by simp), isTerm]
  | c :: d :: ds, _, hclass, hterm => by
    have ih := lazyCapture_all_class terms (d :: ds) (by simp)
      (fun x hx => hclass x (List.mem_cons_of_mem c hx))
      (fun x hx => hterm x (List.mem_cons_of_mem c hx))
    have hterm_d : isTerm terms (d :: ds) = false := by
      simp [isTerm, hterm d (by simp)]
    have hcc : classChar c = true := hclass c (by simp)
    conv_lhs => rw [lazyCapture.eq_def]
    simp [hcc, hterm_d, ih]

/-- After a whitespace character, the greedy whitespace run followed by the
lazy capture returns the input stripped of its leading whitespace, provided
the input is made of class characters, none a terminator, with at least one
non-whitespace character. -/
theorem wsThenCapture_space (terms : List Char) :
    ∀ (S : List Char) (c : Char), pySpace c = true →
      (∀ x ∈ S, classChar x = true) →
      (∀ x ∈ S, terms.any (fun t => x = t) = false) →
      S.dropWhile pySpace ≠ [] →
      wsThenCapture terms (c :: S) = some (S.dropWhile pySpace)
  | [], c, hc, _, _, hne => by simp at hne
  | d :: ds, c, hc, hclass, hterm, hne => by
    by_cases hd : pySpace d = true
    · have hdrop : (d :: ds).dropWhile pySpace = ds.dropWhile pySpace := by
        simp [List.dropWhile_cons, hd]
      have ih := wsThenCapture_space terms ds d hd
        (fun x hx => hclass x (List.mem_cons_of_mem d hx))
        (fun x hx => hterm x (List.mem_cons_of_mem d hx))
        (by rw [hdrop] at hne; exact hne)
      rw [hdrop]
      conv_lhs => rw [wsThenCapture.eq_def]
      simp [hc, ih]
    · have hd2 : pySpace d = false := by
        revert hd
        cases pySpace d <;> simp
      have hdrop : (d :: ds).dropWhile pySpace = d :: ds := by
        simp [List.dropWhile_cons, hd2]
      have hnone : wsThenCapture terms (d :: ds) = none := by
        simp [wsThenCapture, hd2]
      have hlazy := lazyCapture_all_class terms (d :: ds) (by simp) hclass hterm
      rw [hdrop]
      conv_lhs => rw [wsThenCapture.eq_def]
      simp [hc, hnone, hlazy]

/-- Scanning "weather in " followed by anything: the first seven positions
fail the alternation, position seven fails the boundary, and the match at the
standalone "in" returns whatever the whitespace-and-capture stage yields
there. -/
theorem reSearch_weather_prefix (S cap : List Char)
    (h : wsThenCapture ['?', '.'] (' ' :: S) = some cap) :
    reSearch weatherAlts ['?', '.'] none
      ('w' :: 'e' :: 'a' :: 't' :: 'h' :: 'e' :: 'r' :: ' ' :: 'i' :: 'n' :: ' ' :: S) =
      some cap := by
  show (match wsThenCapture ['?', '.'] (' ' :: S) with
        | some cap => some cap
        | none => reSearch weatherAlts ['?', '.'] (some 'i') ('n' :: ' ' :: S)) =
      some cap
  rw [h]

/-- dropWhile is idempotent. -/
theorem dropWhile_dropWhile (p : Char → Bool) :
    ∀ l : List Char, (l.dropWhile p).dropWhile p = l.dropWhile p
  | [] => rfl
  | c :: cs => by
    by_cases h : p c = true
    · rw [List.dropWhile_cons_of_pos h]
      exact dropWhile_dropWhile p cs
    · have h2 : p c = false := by
        revert h
        cases p c <;> simp
      rw [List.dropWhile_cons, h2]
      simp only [Bool.false_eq_true, if_false, List.dropWhile_cons, h2]

/-- Claim C7, counterexample: "for weather in Rome" contains "weather in X"
with X = "Rome", yet the detected city is the capture of the earliest
preposition match ("for ..."), not "Rome". -/
theorem c7_counterexample :
    containsStr "for weather in Rome" "weather in Rome" = true ∧
    detect_tool "for weather in Rome" =
      some (Decision.weather_pipeline "weather in Rome") ∧
    ("weather in Rome" : String) ≠ "Rome" := by decide

/-- Claim C7, amended: for text of the form "weather in X" with X made of
letters and spaces and nonblank, detect returns the weather ToolCall whose
city is X trimmed of surrounding whitespace (punctuation cannot occur in the
capture); in general the city is the capture of the earliest word-boundary
in/at/for phrase of the whole text, which need not follow "weather in". -/
theorem c7_weather_in_city (X : String)
    (hX : ∀ c ∈ X.data, c.isAlpha = true ∨ c = ' ')
    (hne : pyStrip X ≠ "") :
    detect_tool ("weather in " ++ X) =
      some (Decision.weather_pipeline (pyStrip X)) := by
  obtain ⟨lX⟩ := X
  have hclass : ∀ x ∈ lX, classChar x = true := by
    intro x hx
    rcases hX x hx with h | h <;> simp [classChar, h]
  have hterm : ∀ x ∈ lX, (['?', '.'] : List Char).any (fun t => x = t) = false :=
    fun x hx => alphaSpace_term_false ['?', '.'] (by decide) x (hX x hx)
  have hne' : lX.dropWhile pySpace ≠ [] := by
    intro hdrop
    apply hne
    show String.mk (stripList lX) = ""
    rw [stripList, hdrop]
    rfl
  have hws : wsThenCapture ['?', '.'] (' ' :: lX) = some (lX.dropWhile pySpace) :=
    wsThenCapture_space ['?', '.'] lX ' ' rfl hclass hterm hne'
  have hsearch := reSearch_weather_prefix lX (lX.dropWhile pySpace) hws
  have hcap : weatherCityCapture ("weather in " ++ String.mk lX) =
      some (String.mk (lX.dropWhile pySpace)) := by
    show (reSearch weatherAlts ['?', '.'] none
      ('w' :: 'e' :: 'a' :: 't' :: 'h' :: 'e' :: 'r' :: ' ' :: 'i' :: 'n' :: ' ' :: lX)).map
        String.mk = some (String.mk (lX.dropWhile pySpace))
    rw [hsearch]
    rfl
  have hkw : weather_kw ("weather in " ++ String.mk lX) = true := rfl
  have hstrip : pyStrip (String.mk (lX.dropWhile pySpace)) = pyStrip (String.mk lX) := by
    show String.mk (stripList (lX.dropWhile pySpace)) = String.mk (stripList lX)
    rw [stripList, stripList, dropWhile_dropWhile]
  have hwc : weather_city ("weather in " ++ String.mk lX) =
      some (pyStrip (String.mk lX)) := by
    simp only [weather_city, hkw, if_true, hcap, hstrip, hne]
    simp [hne]
  simp only [detect_tool, hwc]

/-- Claim C7, witness: "weather in Tokyo" yields the weather ToolCall with
city "Tokyo". -/
theorem c7_witness :
    detect_tool ("weather in " ++ "Tokyo") =
      some (Decision.weather_pipeline (pyStrip "Tokyo")) :=
  c7_weather_in_city "Tokyo" (by decide) (by decide)
